import Mathlib

/-!
Verification model of the claude-autoapprove decision engine.

The definitions below are a shallow embedding of the Python sources
(`src/claude_autoapprove/detection.py`, `approval.py`, `wrapper.py`,
`constants.py`, `config.py`).  Strings are modelled as Lean `String` /
`List Char`; wall-clock times (Python floats from `time.time()`) are
modelled as `Rat`; the MD5 fingerprint function `RateLimiter._hash_prompt`
is modelled as an abstract parameter `hash : String → String` (the limiter
logic only compares hash values for equality).  Case-insensitive regex
matching is modelled at the ASCII level via `Char.toLower`, matching the
ASCII-only patterns that appear in the source.
-/

namespace AutoApprove

/-- Python `\s` whitespace class (ASCII part), used by the regexes in
`detection.py`. -/
def pyIsSpace (c : Char) : Bool :=
  c == ' ' || c == '\t' || c == '\n' || c == '\r' || c == '\x0b' || c == '\x0c'

/-- Substring test: `needle` occurs contiguously inside `hay`
(Python `needle in hay`). -/
def containsSub : List Char → List Char → Bool
  | _, [] => true
  | [], needle => needle.isEmpty
  | c :: t, needle => needle.isPrefixOf (c :: t) || containsSub t needle

/-- String version of `containsSub` (Python `needle in hay` on `str`). -/
def containsStr (hay needle : String) : Bool :=
  containsSub hay.data needle.data

/-- Case-insensitive (ASCII) substring test; `needle` is given lowercase. -/
def icontainsStr (hay : String) (needle : String) : Bool :=
  containsSub (hay.data.map Char.toLower) needle.data

/-! ### `PromptDetector.strip_ansi` (detection.py lines 49-69)

`strip_ansi` applies three `re.sub` passes:
1. `ANSI_CURSOR_PATTERN` (escape, bracket, digits or semicolons, then a
   final byte in `ABCDEFGHJKfsu`) replaced by a space;
2. `ANSI_ESCAPE_PATTERN` (escape followed by a single byte in the Fe range,
   or a full CSI sequence of parameter, intermediate and final bytes, or an
   OSC sequence terminated by BEL) replaced by the empty string;
3. `" +"` replaced by a single space.

Each pattern is deterministic (the greedy character classes are pairwise
disjoint with what follows them), so `re.sub`'s leftmost non-overlapping
matching is modelled by a left-to-right scan that either consumes a match
or keeps one character.  Each scanner uses the input length as fuel; every
step consumes at least one character, so the fuel never runs out. -/

/-- Final bytes of `ANSI_CURSOR_PATTERN` (constants.py line 28). -/
def cursorFinal (c : Char) : Bool :=
  c == 'A' || c == 'B' || c == 'C' || c == 'D' || c == 'E' || c == 'F' ||
  c == 'G' || c == 'H' || c == 'J' || c == 'K' || c == 'f' || c == 's' || c == 'u'

/-- The `[\d;]` parameter class of `ANSI_CURSOR_PATTERN`. -/
def isDigitSemi (c : Char) : Bool := c.isDigit || c == ';'

/-- Attempt to match `ANSI_CURSOR_PATTERN` at the head of the list,
returning the remainder after the match. -/
def cursorMatchRest (l : List Char) : Option (List Char) :=
  match l with
  | a :: b :: rest =>
      if a = '\x1b' ∧ b = '[' then
        match rest.dropWhile isDigitSemi with
        | c :: tail => if cursorFinal c then some tail else none
        | [] => none
      else none
  | _ => none

/-- `re.sub(ANSI_CURSOR_PATTERN, " ", ·)` as a fuelled left-to-right scan. -/
def subCursorAux : Nat → List Char → List Char
  | 0, l => l
  | _, [] => []
  | fuel + 1, c :: cs =>
      match cursorMatchRest (c :: cs) with
      | some tail => ' ' :: subCursorAux fuel tail
      | none => c :: subCursorAux fuel cs

/-- `[@-Z\\-_]`: `0x40`-`0x5A` or `0x5C`-`0x5F` (note `[` `0x5B` excluded). -/
def escAlt1 (c : Char) : Bool :=
  (0x40 ≤ c.toNat && c.toNat ≤ 0x5A) || (0x5C ≤ c.toNat && c.toNat ≤ 0x5F)

/-- CSI parameter bytes `[0-?]` = `0x30`-`0x3F`. -/
def isCsiParam (c : Char) : Bool := 0x30 ≤ c.toNat && c.toNat ≤ 0x3F

/-- CSI intermediate bytes: `0x20`-`0x2F`. -/
def isCsiInter (c : Char) : Bool := 0x20 ≤ c.toNat && c.toNat ≤ 0x2F

/-- CSI final bytes `[@-~]` = `0x40`-`0x7E`. -/
def isCsiFinal (c : Char) : Bool := 0x40 ≤ c.toNat && c.toNat ≤ 0x7E

/-- Attempt to match `ANSI_ESCAPE_PATTERN` at the head of the list,
with Python's ordered alternation.  (The third alternative `\][^\x07]*\x07`
is unreachable because `]` already satisfies the first alternative's
character class; it is kept for fidelity to the source pattern.) -/
def escMatchRest (l : List Char) : Option (List Char) :=
  match l with
  | a :: c :: rest =>
      if a = '\x1b' then
        if escAlt1 c then some rest
        else if c = '[' then
          match (rest.dropWhile isCsiParam).dropWhile isCsiInter with
          | d :: tail => if isCsiFinal d then some tail else none
          | [] => none
        else if c = ']' then
          match rest.dropWhile (fun b => !(b == '\x07')) with
          | _ :: tail => some tail
          | [] => none
        else none
      else none
  | _ => none

/-- `re.sub(ANSI_ESCAPE_PATTERN, "", ·)` as a fuelled left-to-right scan. -/
def subEscAux : Nat → List Char → List Char
  | 0, l => l
  | _, [] => []
  | fuel + 1, c :: cs =>
      match escMatchRest (c :: cs) with
      | some tail => subEscAux fuel tail
      | none => c :: subEscAux fuel cs

/-- `re.sub(" +", " ", ·)`: collapse runs of spaces to a single space. -/
def collapseAux : Nat → List Char → List Char
  | 0, l => l
  | _, [] => []
  | fuel + 1, c :: cs =>
      if c == ' ' then ' ' :: collapseAux fuel (cs.dropWhile (fun b => b == ' '))
      else c :: collapseAux fuel cs

/-- `PromptDetector.strip_ansi` (detection.py lines 49-69). -/
def strip_ansi (s : String) : String :=
  let l1 := subCursorAux s.data.length s.data
  let l2 := subEscAux l1.length l1
  ⟨collapseAux l2.length l2⟩

/-! ### `PromptDetector` scoring (detection.py lines 71-228) -/

/-- The configuration values of `config.py` consumed by the detector,
limiter and wrapper (defaults from `Config.DEFAULT_CONFIG`). -/
structure Config where
  min_detection_score : Nat
  permission_indicators : List String
  max_same_prompt_approvals : Nat
  max_approvals_per_minute : Nat
  idle_detection_enabled : Bool
  idle_timeout_seconds : Rat
  auto_approve_delay : Nat

/-- `Config.DEFAULT_CONFIG` (config.py lines 34-52). -/
def defaultConfig : Config :=
  { min_detection_score := 3
    permission_indicators := []
    max_same_prompt_approvals := 5
    max_approvals_per_minute := 500
    idle_detection_enabled := true
    idle_timeout_seconds := 5 / 2
    auto_approve_delay := 1 }

/-- Search for lead-phrase plus one of the five verbs, case-insensitively:
the regex `(Do you want to|Would you like to) (create|edit|delete|modify|write)`
with `re.IGNORECASE` (detection.py lines 104-111). -/
def verbPhraseSearch (lead : String) (clean : String) : Bool :=
  let lowered := clean.data.map Char.toLower
  ["create", "edit", "delete", "modify", "write"].any fun v =>
    containsSub lowered (lead.data ++ v.data)

/-- Match `sep` then `\s*` then `No` at the head of the list; used for the
regexes matching a numbered No option. -/
def sepSpacesNo (sep : Char) (l : List Char) : Bool :=
  match l with
  | b :: rest => b == sep && ['N', 'o'].isPrefixOf (rest.dropWhile pyIsSpace)
  | [] => false

/-- `re.search` for the pattern: a `2` or `3`, then `sep`, then `\s*No`
(the patterns on detection.py line 124). -/
def hasNoOption (sep : Char) : List Char → Bool
  | [] => false
  | a :: rest => ((a == '2' || a == '3') && sepSpacesNo sep rest) || hasNoOption sep rest

/-- Head-match for the multiline-anchored pattern: a literal `(y/n)` then
whitespace then end of line.  `\s*$` under `re.MULTILINE` matches exactly a
run of non-newline whitespace followed by end of string or a newline. -/
def ynEolAt (l : List Char) : Bool :=
  match l with
  | '(' :: 'y' :: '/' :: 'n' :: ')' :: rest =>
      match rest.dropWhile (fun c => pyIsSpace c && !(c == '\n')) with
      | [] => true
      | c :: _ => c == '\n'
  | _ => false

/-- `re.search` over all positions for the end-of-line `(y/n)` pattern
(detection.py line 129). -/
def hasYnEol : List Char → Bool
  | [] => false
  | c :: rest => ynEolAt (c :: rest) || hasYnEol rest

/-- `PromptDetector.is_permission_prompt` score computation (detection.py
lines 71-151), with the score kept as a `Nat` (the Python score is never
negative before the two `max(0, ...)` floors, which `Nat` subtraction
reproduces). -/
def permissionScore (cfg : Config) (text : String) : Nat :=
  let clean := strip_ansi text
  let s : Nat := 0
  let s := if containsStr clean "Permission rule" then s + 2 else s
  let s := if containsStr clean "Do you want to proceed?" then s + 2 else s
  let s := if containsStr clean "Would you like to proceed?" then s + 2 else s
  let s := if verbPhraseSearch "do you want to " clean then s + 2 else s
  let s := if verbPhraseSearch "would you like to " clean then s + 2 else s
  let s := if containsStr clean "Esc to cancel" then s + 1 else s
  let s := if containsStr clean "Tab to amend" then s + 1 else s
  let s := if containsStr clean "Enter to approve" || containsStr clean "Enter to confirm"
           then s + 1 else s
  let hasYes := containsStr clean "1. Yes" || containsStr clean "1) Yes"
  let hasNo := hasNoOption '.' clean.data || hasNoOption ')' clean.data
  let s := if hasYes && hasNo then s + 3 else s
  let s := if hasYnEol clean.data then s + 1 else s
  let s := if cfg.permission_indicators.any (fun ind => containsStr clean ind)
           then s + 2 else s
  let s := if containsStr clean "```" then 0 else s
  let s := if clean.length > 2000 then s - 2 else s
  let sentences := clean.data.count '.' + clean.data.count '?' + clean.data.count '!'
  let s := if sentences > 10 then s - 1 else s
  s

/-- `PromptDetector.is_permission_prompt` (detection.py lines 71-168):
true iff the score reaches `min_detection_score`. -/
def is_permission_prompt (cfg : Config) (text : String) : Bool :=
  cfg.min_detection_score ≤ permissionScore cfg text

/-- Scan for `first`, then any non-newline characters, then `w`
(the regex `first.*w` without `re.DOTALL`); `l` is already lowercased. -/
def seekWordThen (w : List Char) : List Char → Bool
  | [] => false
  | c :: rest => w.isPrefixOf (c :: rest) || (!(c == '\n') && seekWordThen w rest)

/-- Search for `first` anywhere, followed on the same line by `w`. -/
def sameLineSeq (first w : List Char) : List Char → Bool
  | [] => false
  | c :: rest =>
      (first.isPrefixOf (c :: rest) && seekWordThen w ((c :: rest).drop first.length)) ||
      sameLineSeq first w rest

/-- `PromptDetector.get_prompt_type` (detection.py lines 170-195).
The text-input regex `Type.*yes|Enter.*yes|\(y/n\)` is matched with
`re.IGNORECASE`, modelled by lowering the text. -/
def get_prompt_type (text : String) : String :=
  let clean := strip_ansi text
  if containsStr clean "1. Yes" || containsStr clean "2. No" then "numbered_menu"
  else
    let lowered := clean.data.map Char.toLower
    if sameLineSeq "type".data "yes".data lowered ||
       sameLineSeq "enter".data "yes".data lowered ||
       containsSub lowered "(y/n)".data
    then "text_input"
    else "numbered_menu"

/-- `re.search(r"\d+\)\s+", text)`: a digit, a closing parenthesis, then at
least one whitespace character (taking the last digit of the `\d+` run). -/
def hasNumberedChoice : List Char → Bool
  | d :: p :: s :: rest =>
      (d.isDigit && p == ')' && pyIsSpace s) || hasNumberedChoice (p :: s :: rest)
  | _ => false

/-- Seek `target` before the next newline; on success return the remainder
after it (used for the regexes with `.*` between literal characters). -/
def seekCharSameLine (target : Char) : List Char → Option (List Char)
  | [] => none
  | c :: rest =>
      if c == target then some rest
      else if c == '\n' then none
      else seekCharSameLine target rest

/-- `re.search(r"Choose.*:", text, re.IGNORECASE)` on lowered text. -/
def hasChooseColon : List Char → Bool
  | [] => false
  | c :: rest =>
      ("choose".data.isPrefixOf (c :: rest) &&
        (seekCharSameLine ':' ((c :: rest).drop 6)).isSome) ||
      hasChooseColon rest

/-- `re.search(r"\[.*\].*\?", text, re.IGNORECASE)`: a bracketed segment
followed by a question mark, all on one line. -/
def hasBracketQuestion : List Char → Bool
  | [] => false
  | c :: rest =>
      (c == '[' &&
        (match seekCharSameLine ']' rest with
         | some afterBr => (seekCharSameLine '?' afterBr).isSome
         | none => false)) ||
      hasBracketQuestion rest

/-- The four question patterns of `is_question_prompt` (detection.py
lines 218-223), each searched with `re.IGNORECASE` on the raw text. -/
def questionPatternMatch (text : String) : Bool :=
  let lowered := text.data.map Char.toLower
  hasNumberedChoice text.data || containsSub lowered "select an option".data ||
  hasChooseColon lowered || hasBracketQuestion lowered

/-- `PromptDetector.is_question_prompt` (detection.py lines 197-228). -/
def is_question_prompt (cfg : Config) (text : String) : Bool :=
  if is_permission_prompt cfg text then false
  else questionPatternMatch text

/-! ### `RateLimiter` (detection.py lines 231-378)

Wall-clock times (`time.time()` floats) are modelled as `Rat`.  The MD5
fingerprint `_hash_prompt` is modelled as an abstract `hash : String → String`
parameter: the limiter only ever compares fingerprints for equality. -/

/-- The mutable state of a `RateLimiter`: `approval_timestamps` and
`approval_hashes` (detection.py lines 263-264). -/
structure RLState where
  approval_timestamps : List Rat
  approval_hashes : List (String × Rat)
  deriving Repr, DecidableEq

/-- The freshly constructed limiter state (`RateLimiter.__init__`). -/
def RLState.init : RLState := ⟨[], []⟩

/-- `RateLimiter.cleanup_old_entries` (detection.py lines 266-279): drop
every entry whose age reaches `window` (the kept entries satisfy the strict
`current_time - t < window_seconds`). -/
def cleanup_old_entries (now window : Rat) (s : RLState) : RLState :=
  { approval_timestamps := s.approval_timestamps.filter (fun t => now - t < window)
    approval_hashes := s.approval_hashes.filter (fun p => now - p.2 < window) }

/-- `RateLimiter.check_approval_allowed` (detection.py lines 293-342).
Returns the post-call state (the method mutates `self` only through
`cleanup_old_entries`) together with `(allowed, reason)`. -/
def check_approval_allowed (cfg : Config) (hash : String → String) (now : Rat)
    (s : RLState) (text : String) : RLState × Bool × Option String :=
  let s := cleanup_old_entries now 60 s
  let prompt_hash := hash (strip_ansi text)
  let same_prompt_count := (s.approval_hashes.filter (fun p => p.1 == prompt_hash)).length
  if cfg.max_same_prompt_approvals ≤ same_prompt_count then
    (s, false, some ("Same prompt approved " ++ toString same_prompt_count ++
      " times in 60s (max: " ++ toString cfg.max_same_prompt_approvals ++ ")"))
  else if cfg.max_approvals_per_minute ≤ s.approval_timestamps.length then
    (s, false, some ("Rate limit: " ++ toString s.approval_timestamps.length ++
      " approvals/min (max: " ++ toString cfg.max_approvals_per_minute ++ ")"))
  else
    (s, true, none)

/-- `RateLimiter.record_approval` (detection.py lines 344-360). -/
def record_approval (hash : String → String) (now : Rat) (s : RLState)
    (text : String) : RLState :=
  { approval_timestamps := s.approval_timestamps ++ [now]
    approval_hashes := s.approval_hashes ++ [(hash (strip_ansi text), now)] }

/-! ### `ApprovalManager` and `ClaudeWrapper` state (approval.py, wrapper.py)

A combined sequential model of the wrapper-visible state.  PTY writes are
recorded in order in `writes`; each entry is one `os.write` payload
(`"\r"` or `"yes"`). -/

/-- Combined wrapper and approval-manager state. -/
structure WrapperModel where
  auto_approve_enabled : Bool
  output_buffer : String
  approval_count : Nat
  last_approval_time : Rat
  rl : RLState
  last_buffer : String
  countdown_running : Bool
  countdown_cancelled : Bool
  countdown_approve_now : Bool
  last_output_time : Rat
  last_idle_action_time : Rat
  writes : List String

/-- The wrapper state at session start: empty buffer, fresh limiter, no
countdown, no writes (wrapper.py `__init__` and `run`). -/
def WrapperModel.init : WrapperModel :=
  { auto_approve_enabled := true
    output_buffer := ""
    approval_count := 0
    last_approval_time := 0
    rl := RLState.init
    last_buffer := ""
    countdown_running := false
    countdown_cancelled := false
    countdown_approve_now := false
    last_output_time := 0
    last_idle_action_time := 0
    writes := [] }

/-- `ApprovalManager._execute_approval` (approval.py lines 129-169):
increment the counter, record the time, and write the keystrokes matching
`get_prompt_type` of the buffer captured at start time. -/
def execute_approval (now : Rat) (m : WrapperModel) : WrapperModel :=
  let m := { m with approval_count := m.approval_count + 1, last_approval_time := now }
  if get_prompt_type m.last_buffer == "numbered_menu" then
    { m with writes := m.writes ++ ["\r"] }
  else
    { m with writes := m.writes ++ ["yes", "\r"] }

/-- `ApprovalManager.countdown_and_approve` (approval.py lines 89-127) run
sequentially (no concurrent flag mutation during the run), followed by the
`finally` clause of `countdown_wrapper` that resets `_countdown_running`.
Each loop iteration checks `approve_now` (break to the final check) and
`cancelled` (return without approving); after the loop a final
`cancelled` check guards `_execute_approval`. -/
def countdown_and_approve (now : Rat) : Nat → WrapperModel → WrapperModel
  | 0, m =>
      if m.countdown_cancelled then { m with countdown_running := false }
      else { execute_approval now m with countdown_running := false }
  | i + 1, m =>
      if m.countdown_approve_now then
        if m.countdown_cancelled then { m with countdown_running := false }
        else { execute_approval now m with countdown_running := false }
      else if m.countdown_cancelled then { m with countdown_running := false }
      else countdown_and_approve now i m

/-- `ApprovalManager.start_countdown` (approval.py lines 171-225): rate
check, then (under the lock) cancel any running countdown unconditionally,
mark the new countdown running, reset both events, capture the buffer and
record the approval.  Returns the updated state and whether a countdown
was started.  The spawned thread itself is modelled separately by
`countdown_and_approve`. -/
def start_countdown (cfg : Config) (hash : String → String) (now : Rat)
    (m : WrapperModel) (buffer : String) : WrapperModel × Bool :=
  let (rl, allowed, _reason) := check_approval_allowed cfg hash now m.rl buffer
  let m := { m with rl := rl }
  if !allowed then (m, false)
  else
    let m :=
      if m.countdown_running then
        { m with countdown_cancelled := true, countdown_running := false }
      else m
    let m :=
      { m with countdown_running := true
               countdown_cancelled := false
               countdown_approve_now := false
               last_buffer := buffer
               rl := record_approval hash now m.rl buffer }
    (m, true)

/-- `ClaudeWrapper._handle_claude_output` (wrapper.py lines 281-326):
append the decoded data to the buffer, trim the front when the buffer
exceeds `MAX_BUFFER_SIZE = 10000` (dropping `int(10000 * 0.2) = 2000`
characters), classify when enabled, start the countdown on detection and
clear the buffer when one was started. -/
def handle_claude_output (cfg : Config) (hash : String → String) (now : Rat)
    (m : WrapperModel) (data : String) : WrapperModel × Bool :=
  let m := { m with last_output_time := now }
  let buf := m.output_buffer ++ data
  let buf := if 10000 < buf.length then buf.drop 2000 else buf
  let m := { m with output_buffer := buf }
  if m.auto_approve_enabled && is_permission_prompt cfg buf then
    let (m, started) := start_countdown cfg hash now m buf
    if started then ({ m with output_buffer := "" }, true) else (m, false)
  else
    (m, false)

/-- `ClaudeWrapper._check_idle_state` (wrapper.py lines 328-389): when idle
detection is on, auto-approve is enabled, no countdown is running, both the
output and the previous idle action are at least `idle_timeout_seconds`
old, and the buffer holds more than 50 characters, synthesize the
keystrokes for the buffer's prompt type, bump the approval counters,
append the time to the limiter's `approval_timestamps` (only that window),
and clear the buffer. -/
def check_idle_state (cfg : Config) (now : Rat) (m : WrapperModel) : WrapperModel :=
  if !cfg.idle_detection_enabled then m
  else if !m.auto_approve_enabled || m.countdown_running then m
  else if cfg.idle_timeout_seconds ≤ now - m.last_output_time &&
          cfg.idle_timeout_seconds ≤ now - m.last_idle_action_time &&
          50 < m.output_buffer.length then
    let m :=
      if get_prompt_type m.output_buffer == "numbered_menu" then
        { m with writes := m.writes ++ ["\r"] }
      else
        { m with writes := m.writes ++ ["yes", "\r"] }
    { m with last_idle_action_time := now
             approval_count := m.approval_count + 1
             last_approval_time := now
             rl := { m.rl with
                       approval_timestamps := m.rl.approval_timestamps ++ [now] }
             output_buffer := "" }
  else m

/-- Consecutive calls of `check_approval_allowed` with no intervening
`record_approval`: `check_iterate n s` is the result of the `(n+1)`-th
consecutive call starting from limiter state `s`. -/
def check_iterate (cfg : Config) (hash : String → String) (now : Rat)
    (text : String) : Nat → RLState → RLState × Bool × Option String
  | 0, s => check_approval_allowed cfg hash now s text
  | n + 1, s => check_iterate cfg hash now text n (check_approval_allowed cfg hash now s text).1

/-! ### Interleaving model of the countdown threads (approval.py lines 89-225)

`countdown_and_approve` runs in its own thread and reads the shared events
`_countdown_cancelled` and `_countdown_approve_now` without holding
`_countdown_lock`; `start_countdown`'s locked section cancels a running
countdown, then immediately clears both events and spawns the new thread.
The model below makes every flag read and the whole locked section atomic
steps; since the countdown thread takes no lock, interleaving those atomic
steps yields genuine schedules of the Python program (the model restricts
to schedules in which the locked section is not interrupted, which the
scheduler can always produce). -/

/-- Program points of a thread running `countdown_and_approve`. -/
inductive ThreadPC where
  | loopCheck (i : Nat)
  | finalCheck
  | notStarted
  | finished
  deriving DecidableEq, Repr

/-- Entry point of `countdown_and_approve delay`: with `delay = 0` the
`for` loop body never runs and control reaches the final check directly. -/
def countdownEntry (delay : Nat) : ThreadPC :=
  if delay = 0 then ThreadPC.finalCheck else ThreadPC.loopCheck delay

/-- Shared state plus the program counters of the first countdown thread,
the superseding countdown thread, and whether the superseding
`start_countdown` call has happened. -/
structure ConcState where
  countdown_running : Bool
  countdown_cancelled : Bool
  countdown_approve_now : Bool
  last_buffer : String
  writes : List String
  thread1 : ThreadPC
  thread2 : ThreadPC
  superseded : Bool
  deriving Repr

/-- Program counter of thread `t` (`false` = first thread, `true` =
superseding thread). -/
def ConcState.pc (s : ConcState) (t : Bool) : ThreadPC :=
  if t then s.thread2 else s.thread1

/-- Replace the program counter of thread `t`. -/
def ConcState.setPc (s : ConcState) (t : Bool) (p : ThreadPC) : ConcState :=
  if t then { s with thread2 := p } else { s with thread1 := p }

/-- One atomic step of the two-countdown system.  The loop body of
`countdown_and_approve` checks `approve_now` first (break to the final
check), then `cancelled` (return without approving), then sleeps one tick;
after the loop, the final `cancelled` check guards `_execute_approval`,
whose PTY write is followed by the `finally` reset of
`_countdown_running`.  `supersede` is `start_countdown`'s locked section
for a new buffer when the rate check passed: it sets `_countdown_cancelled`
and then immediately clears it again for the new countdown, clears
`approve_now`, overwrites `_last_buffer` and spawns the second thread. -/
inductive CStep : ConcState → ConcState → Prop where
  | tick (s : ConcState) (t : Bool) (i : Nat)
      (h : s.pc t = ThreadPC.loopCheck (i + 1))
      (han : s.countdown_approve_now = false)
      (hc : s.countdown_cancelled = false) :
      CStep s (s.setPc t (if i = 0 then ThreadPC.finalCheck else ThreadPC.loopCheck i))
  | loopApproveNow (s : ConcState) (t : Bool) (i : Nat)
      (h : s.pc t = ThreadPC.loopCheck (i + 1))
      (han : s.countdown_approve_now = true) :
      CStep s (s.setPc t ThreadPC.finalCheck)
  | loopCancelled (s : ConcState) (t : Bool) (i : Nat)
      (h : s.pc t = ThreadPC.loopCheck (i + 1))
      (han : s.countdown_approve_now = false)
      (hc : s.countdown_cancelled = true) :
      CStep s { s.setPc t ThreadPC.finished with countdown_running := false }
  | finalCancelled (s : ConcState) (t : Bool)
      (h : s.pc t = ThreadPC.finalCheck)
      (hc : s.countdown_cancelled = true) :
      CStep s { s.setPc t ThreadPC.finished with countdown_running := false }
  | finalApprove (s : ConcState) (t : Bool)
      (h : s.pc t = ThreadPC.finalCheck)
      (hc : s.countdown_cancelled = false) :
      CStep s { s.setPc t ThreadPC.finished with
                countdown_running := false
                writes := s.writes ++
                  (if get_prompt_type s.last_buffer == "numbered_menu"
                   then ["\r"] else ["yes", "\r"]) }
  | supersede (s : ConcState) (buffer : String) (delay : Nat)
      (h : s.superseded = false) (h2 : s.thread2 = ThreadPC.notStarted) :
      CStep s { s with superseded := true
                       countdown_running := true
                       countdown_cancelled := false
                       countdown_approve_now := false
                       last_buffer := buffer
                       thread2 := countdownEntry delay }

/-- System state just after a first `start_countdown buffer delay`
succeeded: countdown running, events clear, first thread spawned. -/
def concInit (buffer : String) (delay : Nat) : ConcState :=
  { countdown_running := true
    countdown_cancelled := false
    countdown_approve_now := false
    last_buffer := buffer
    writes := []
    thread1 := countdownEntry delay
    thread2 := ThreadPC.notStarted
    superseded := false }

/-- Whether a string still contains a raw escape byte `0x1b`. -/
def containsEsc (s : String) : Bool :=
  s.data.any (fun c => c == '\x1b')

/-- The space-collapsing pass of `strip_ansi` as a standalone function. -/
def collapseSpaces (l : List Char) : List Char :=
  collapseAux l.length l

end AutoApprove

namespace AutoApprove

/-! ### Helper lemmas -/

theorem count_filter_eq {α : Type} [BEq α] [LawfulBEq α] (a : α) (p : α → Bool)
    (l : List α) : (l.filter p).count a = if p a then l.count a else 0 := by
  induction l with
  | nil => simp
  | cons c cs ih =>
    by_cases hp : p c <;> by_cases hac : a = c <;>
      simp_all [List.count_cons, List.filter_cons]

theorem cleanup_idem (now w : Rat) (s : RLState) :
    cleanup_old_entries now w (cleanup_old_entries now w s) =
      cleanup_old_entries now w s := by
  simp [cleanup_old_entries, List.filter_filter]

theorem check_of_cleanup (cfg : Config) (hash : String → String) (now : Rat)
    (s : RLState) (text : String) :
    check_approval_allowed cfg hash now (cleanup_old_entries now 60 s) text =
      check_approval_allowed cfg hash now s text := by
  simp only [check_approval_allowed, cleanup_idem]

theorem check_fst_eq_cleanup (cfg : Config) (hash : String → String) (now : Rat)
    (s : RLState) (text : String) :
    (check_approval_allowed cfg hash now s text).1 = cleanup_old_entries now 60 s := by
  simp only [check_approval_allowed]
  split
  · rfl
  · split <;> rfl

/-! ### Claim theorems -/

/-- C9: for every configuration and text, `is_question_prompt` and
`is_permission_prompt` are never both true, and `is_question_prompt` holds
exactly when the text is not a permission prompt and matches one of the
four question patterns (numbered options, "Select an option",
"Choose...:", or a bracketed option followed by a question mark). -/
theorem question_and_permission_disjoint (cfg : Config) (t : String) :
    (¬ (is_question_prompt cfg t = true ∧ is_permission_prompt cfg t = true)) ∧
    (is_question_prompt cfg t = true ↔
      is_permission_prompt cfg t = false ∧ questionPatternMatch t = true) := by
  by_cases h : is_permission_prompt cfg t <;> simp [is_question_prompt, h]

/-- C10: `check_approval_allowed` changes the limiter state only by purging
entries older than the 60-second window — the state it leaves behind is
exactly `cleanup_old_entries now 60 s` (no appends) — and therefore any
number of consecutive calls at the same instant with no intervening
`record_approval` return the same state, verdict and reason as the first
call. -/
theorem check_approval_allowed_idempotent (cfg : Config) (hash : String → String)
    (now : Rat) (s : RLState) (text : String) :
    (check_approval_allowed cfg hash now s text).1 = cleanup_old_entries now 60 s ∧
    ∀ n : Nat, check_iterate cfg hash now text n s =
      check_approval_allowed cfg hash now s text := by
  refine ⟨check_fst_eq_cleanup cfg hash now s text, ?_⟩
  intro n
  induction n generalizing s with
  | zero => rfl
  | succ n ih =>
    rw [check_iterate, ih, check_fst_eq_cleanup, check_of_cleanup]

/-- C8 (amended): approval records are retained in both sliding windows
exactly while their age is strictly below 60 seconds.  Purging is lazy:
checking against a raw state and against its purged form give identical
results (so entries of age ≥ 60s never count toward either limit), and the
purged windows keep each record, with multiplicity, iff `now - t < 60`. -/
theorem approval_window_strict (cfg : Config) (hash : String → String)
    (now : Rat) (s : RLState) (text : String) :
    check_approval_allowed cfg hash now (cleanup_old_entries now 60 s) text =
      check_approval_allowed cfg hash now s text ∧
    (∀ t : Rat, (cleanup_old_entries now 60 s).approval_timestamps.count t =
      if now - t < 60 then s.approval_timestamps.count t else 0) ∧
    (∀ pr : String × Rat, (cleanup_old_entries now 60 s).approval_hashes.count pr =
      if now - pr.2 < 60 then s.approval_hashes.count pr else 0) := by
  refine ⟨check_of_cleanup cfg hash now s text, ?_, ?_⟩
  · intro t
    simp [cleanup_old_entries, count_filter_eq]
  · intro pr
    simp [cleanup_old_entries, count_filter_eq]

/-- C8 (counterexample to the claim as stated): a record whose age is
exactly 60 seconds — "at most 60 seconds" in the claim's words — is purged
by `cleanup_old_entries` (the kept entries satisfy the strict
`now - t < 60`), and five same-fingerprint records of age exactly 60 do
not count toward the same-prompt limit: the check still allows. -/
theorem approval_window_boundary_cex :
    cleanup_old_entries 60 60 ⟨[0], [("h", 0)]⟩ = ⟨[], []⟩ ∧
    (check_approval_allowed defaultConfig (fun _ => "h") 60
      ⟨[0, 0, 0, 0, 0], [("h", 0), ("h", 0), ("h", 0), ("h", 0), ("h", 0)]⟩
      "t").2 = (true, none) := by
  have h : ¬ ((60 : Rat) - 0 < 60) := by norm_num
  constructor
  · simp [cleanup_old_entries, List.filter_cons, h]
  · simp [check_approval_allowed, cleanup_old_entries, List.filter_cons, h, defaultConfig]

theorem cursorMatchRest_cons_eq_none (c : Char) (cs : List Char) (h : ¬ c = '\x1b') :
    cursorMatchRest (c :: cs) = none := by
  cases cs with
  | nil => rfl
  | cons b rest => simp [cursorMatchRest, h]

theorem escMatchRest_cons_eq_none (c : Char) (cs : List Char) (h : ¬ c = '\x1b') :
    escMatchRest (c :: cs) = none := by
  cases cs with
  | nil => rfl
  | cons b rest => simp [escMatchRest, h]

theorem subCursorAux_zero (l : List Char) : subCursorAux 0 l = l := by
  cases l <;> rfl

theorem subEscAux_zero (l : List Char) : subEscAux 0 l = l := by
  cases l <;> rfl

theorem collapseAux_zero (l : List Char) : collapseAux 0 l = l := by
  cases l <;> rfl

theorem subCursorAux_of_no_esc (fuel : Nat) (l : List Char)
    (h : ∀ c ∈ l, ¬ c = '\x1b') : subCursorAux fuel l = l := by
  induction fuel generalizing l with
  | zero => exact subCursorAux_zero l
  | succ fuel ih =>
    cases l with
    | nil => rfl
    | cons c cs =>
      rw [subCursorAux, cursorMatchRest_cons_eq_none c cs (h c (by simp))]
      exact congrArg (c :: ·) (ih cs fun b hb => h b (by simp [hb]))

theorem subEscAux_of_no_esc (fuel : Nat) (l : List Char)
    (h : ∀ c ∈ l, ¬ c = '\x1b') : subEscAux fuel l = l := by
  induction fuel generalizing l with
  | zero => exact subEscAux_zero l
  | succ fuel ih =>
    cases l with
    | nil => rfl
    | cons c cs =>
      rw [subEscAux, escMatchRest_cons_eq_none c cs (h c (by simp))]
      exact congrArg (c :: ·) (ih cs fun b hb => h b (by simp [hb]))

theorem collapseAux_nil (fuel : Nat) : collapseAux fuel [] = [] := by
  cases fuel <;> rfl

theorem collapseAux_fuel_irrel (f1 : Nat) :
    ∀ (f2 : Nat) (l : List Char), l.length ≤ f1 → l.length ≤ f2 →
      collapseAux f1 l = collapseAux f2 l := by
  induction f1 with
  | zero =>
    intro f2 l h1 _
    rw [List.length_eq_zero.mp (Nat.le_zero.mp h1), collapseAux_nil, collapseAux_nil]
  | succ f1 ih =>
    intro f2 l h1 h2
    cases l with
    | nil => rw [collapseAux_nil, collapseAux_nil]
    | cons c cs =>
      cases f2 with
      | zero => exact absurd h2 (by simp)
      | succ f2 =>
        rw [collapseAux, collapseAux]
        by_cases hc : c == ' '
        · simp only [hc, if_pos]
          have hd := (List.dropWhile_sublist (fun b => b == ' ')
            (l := cs)).length_le
          exact congrArg (' ' :: ·) (ih f2 _
            (le_trans hd (by simpa using h1))
            (le_trans hd (by simpa using h2)))
        · simp only [hc, if_neg, Bool.false_eq_true, not_false_iff]
          exact congrArg (c :: ·) (ih f2 cs
            (by simpa using h1) (by simpa using h2))

theorem collapseSpaces_cons_ne (c : Char) (cs : List Char) (h : ¬ c = ' ') :
    collapseSpaces (c :: cs) = c :: collapseSpaces cs := by
  have hc : (c == ' ') = false := by simpa using h
  simp only [collapseSpaces, List.length_cons, collapseAux, hc, Bool.false_eq_true,
    if_neg, not_false_iff]

theorem collapseSpaces_cons_space (cs : List Char) :
    collapseSpaces (' ' :: cs) =
      ' ' :: collapseSpaces (cs.dropWhile (fun b => b == ' ')) := by
  simp only [collapseSpaces, List.length_cons, collapseAux, if_pos]
  exact congrArg (' ' :: ·) (collapseAux_fuel_irrel cs.length _ _
    ((List.dropWhile_sublist _).length_le) (le_refl _))

theorem mem_collapseAux (fuel : Nat) (l : List Char) (a : Char)
    (h : a ∈ collapseAux fuel l) : a ∈ l ∨ a = ' ' := by
  induction fuel generalizing l with
  | zero => exact Or.inl (by rwa [collapseAux_zero] at h)
  | succ fuel ih =>
    cases l with
    | nil => exact Or.inl h
    | cons c cs =>
      rw [collapseAux] at h
      by_cases hc : c == ' '
      · rw [if_pos hc] at h
        rcases List.mem_cons.mp h with h | h
        · exact Or.inr h
        · rcases ih _ h with h | h
          · exact Or.inl (List.mem_cons_of_mem c
              ((List.dropWhile_sublist (fun b => b == ' ')).subset h))
          · exact Or.inr h
      · rw [if_neg hc] at h
        rcases List.mem_cons.mp h with h | h
        · exact Or.inl (by simp [h])
        · rcases ih _ h with h | h
          · exact Or.inl (List.mem_cons_of_mem c h)
          · exact Or.inr h

theorem dropWhile_head_not (p : Char → Bool) (l : List Char) :
    l.dropWhile p = [] ∨
      ∃ d ds, l.dropWhile p = d :: ds ∧ p d = false := by
  induction l with
  | nil => exact Or.inl rfl
  | cons c cs ih =>
    by_cases hp : p c
    · simpa [List.dropWhile_cons, hp] using ih
    · exact Or.inr ⟨c, cs, by simp [List.dropWhile_cons, hp], by simpa using hp⟩

theorem collapseSpaces_idem_aux (n : Nat) :
    ∀ l : List Char, l.length ≤ n →
      collapseSpaces (collapseSpaces l) = collapseSpaces l := by
  induction n with
  | zero =>
    intro l h
    rw [List.length_eq_zero.mp (Nat.le_zero.mp h)]
    rfl
  | succ n ih =>
    intro l h
    cases l with
    | nil => rfl
    | cons c cs =>
      by_cases hc : c = ' '
      · subst hc
        rw [collapseSpaces_cons_space]
        set cs' := cs.dropWhile (fun b => b == ' ') with hcs'
        rw [collapseSpaces_cons_space]
        have hidem : collapseSpaces (collapseSpaces cs') = collapseSpaces cs' := by
          refine ih cs' (le_trans ?_ (show cs.length ≤ n by simpa using h))
          exact (List.dropWhile_sublist _).length_le
        rcases dropWhile_head_not (fun b => b == ' ') cs with hnil | ⟨d, ds, hd, hdp⟩
        · rw [← hcs'] at hnil
          rw [hnil]
          simp [collapseSpaces, collapseAux_nil]
        · rw [← hcs'] at hd
          rw [hd, collapseSpaces_cons_ne d ds (by simpa using hdp),
            List.dropWhile_cons, if_neg (by simp [hdp]),
            ← collapseSpaces_cons_ne d ds (by simpa using hdp), ← hd, hidem]
      · rw [collapseSpaces_cons_ne c cs hc, collapseSpaces_cons_ne c _ hc,
          ih cs (by simpa using h)]

theorem collapseSpaces_idem (l : List Char) :
    collapseSpaces (collapseSpaces l) = collapseSpaces l :=
  collapseSpaces_idem_aux l.length l (le_refl _)

theorem strip_ansi_of_no_esc (x : String) (h : containsEsc x = false) :
    strip_ansi x = ⟨collapseSpaces x.data⟩ := by
  have hmem : ∀ c ∈ x.data, ¬ c = '\x1b' := by
    simpa [containsEsc] using h
  rw [strip_ansi]
  rw [subCursorAux_of_no_esc _ _ hmem, subEscAux_of_no_esc _ _ hmem]
  rfl

/-- C6 (amended): on every input that contains no raw escape byte, the
normalizer degenerates to space collapsing, is idempotent, and its output
still contains no escape byte.  (On inputs with stray or rejoined escape
bytes both properties fail; see the counterexample.) -/
theorem strip_ansi_idempotent_of_no_esc (x : String) (h : containsEsc x = false) :
    strip_ansi (strip_ansi x) = strip_ansi x ∧
      containsEsc (strip_ansi x) = false := by
  have hx := strip_ansi_of_no_esc x h
  have hout : containsEsc (strip_ansi x) = false := by
    rw [hx]
    have hmem : ∀ c ∈ x.data, ¬ c = '\x1b' := by
      simpa [containsEsc] using h
    simp only [containsEsc, List.any_eq_false]
    intro c hc
    rcases mem_collapseAux _ _ c hc with hm | hm
    · simpa using hmem c hm
    · simp [hm]

  refine ⟨?_, hout⟩
  rw [hx] at hout ⊢
  rw [strip_ansi_of_no_esc _ hout]
  exact congrArg String.mk (collapseSpaces_idem x.data)

/-- C6 (counterexample to the claim as stated): for the input
`"\x1b\x1b[0m[2J"` the first pass removes the inner `\x1b[0m` and thereby
joins the leading escape byte with `[2J` into a new cursor sequence: the
output `"\x1b[2J"` still contains a raw escape byte, and a second
application collapses it to `" "`, so `strip_ansi` is not idempotent. -/
theorem strip_ansi_not_idempotent_cex :
    ¬ (strip_ansi (strip_ansi "\x1b\x1b[0m[2J") = strip_ansi "\x1b\x1b[0m[2J" ∧
       containsEsc (strip_ansi "\x1b\x1b[0m[2J") = false) := by
  decide

/-- Witness for `strip_ansi_idempotent_of_no_esc` at the concrete
escape-free input `"a  b"`. -/
theorem strip_ansi_idempotent_witness :
    containsEsc "a  b" = false ∧
      strip_ansi (strip_ansi "a  b") = strip_ansi "a  b" :=
  ⟨by decide, (strip_ansi_idempotent_of_no_esc "a  b" (by decide)).1⟩

theorem foldl_record_eq (hash : String → String) (p : String) (ts : List Rat)
    (s0 : RLState) :
    ts.foldl (fun s t => record_approval hash t s p) s0 =
      ⟨s0.approval_timestamps ++ ts,
        s0.approval_hashes ++ ts.map (fun t => (hash (strip_ansi p), t))⟩ := by
  induction ts generalizing s0 with
  | nil =>
    cases s0
    simp
  | cons t ts ih =>
    rw [List.foldl_cons, ih]
    simp [record_approval]

theorem check_refuse_loop (cfg : Config) (hash : String → String) (now : Rat)
    (s : RLState) (text : String)
    (h : cfg.max_same_prompt_approvals ≤
      ((cleanup_old_entries now 60 s).approval_hashes.filter
        (fun pr => pr.1 == hash (strip_ansi text))).length) :
    check_approval_allowed cfg hash now s text =
      (cleanup_old_entries now 60 s, false,
        some ("Same prompt approved " ++
          toString ((cleanup_old_entries now 60 s).approval_hashes.filter
            (fun pr => pr.1 == hash (strip_ansi text))).length ++
          " times in 60s (max: " ++ toString cfg.max_same_prompt_approvals ++ ")")) := by
  simp only [check_approval_allowed, if_pos h]

theorem check_allow (cfg : Config) (hash : String → String) (now : Rat)
    (s : RLState) (text : String)
    (h1 : ¬ cfg.max_same_prompt_approvals ≤
      ((cleanup_old_entries now 60 s).approval_hashes.filter
        (fun pr => pr.1 == hash (strip_ansi text))).length)
    (h2 : ¬ cfg.max_approvals_per_minute ≤
      (cleanup_old_entries now 60 s).approval_timestamps.length) :
    check_approval_allowed cfg hash now s text =
      (cleanup_old_entries now 60 s, true, none) := by
  simp only [check_approval_allowed, if_neg h1, if_neg h2]

/-- C3: starting from a fresh limiter, after `record_approval` has run the
default `max_same_prompt_approvals = 5` times for prompt `p` at times
inside the 60-second window, `check_approval_allowed` refuses `p` with the
loop-detected reason, while any text `q` with a different fingerprint is
still allowed at the same moment (the global per-minute limit, 500, is far
from reached). -/
theorem rate_limiter_loop_detection (hash : String → String) (p q : String)
    (ts : List Rat) (now : Rat)
    (hlen : ts.length = 5)
    (hwin : ∀ t ∈ ts, now - t < 60)
    (hdiff : hash (strip_ansi q) ≠ hash (strip_ansi p)) :
    (check_approval_allowed defaultConfig hash now
        (ts.foldl (fun s t => record_approval hash t s p) RLState.init) p).2 =
      (false, some "Same prompt approved 5 times in 60s (max: 5)") ∧
    (check_approval_allowed defaultConfig hash now
        (ts.foldl (fun s t => record_approval hash t s p) RLState.init) q).2 =
      (true, none) := by
  rw [foldl_record_eq]
  set hp := hash (strip_ansi p) with hhp
  have hstate : (⟨RLState.init.approval_timestamps ++ ts,
      RLState.init.approval_hashes ++ ts.map (fun t => (hp, t))⟩ : RLState) =
      ⟨ts, ts.map (fun t => (hp, t))⟩ := by
    simp [RLState.init]
  rw [hstate]
  have hts : ts.filter (fun t => decide (now - t < 60)) = ts :=
    List.filter_eq_self.mpr (fun t ht => by simpa using hwin t ht)
  have hhs : (ts.map (fun t => (hp, t))).filter
      (fun pr => decide (now - pr.2 < 60)) = ts.map (fun t => (hp, t)) := by
    refine List.filter_eq_self.mpr ?_
    intro pr hpr
    rcases List.mem_map.mp hpr with ⟨t, ht, rfl⟩
    simpa using hwin t ht
  have hclean : cleanup_old_entries now 60 ⟨ts, ts.map (fun t => (hp, t))⟩ =
      ⟨ts, ts.map (fun t => (hp, t))⟩ := by
    simp only [cleanup_old_entries]
    rw [hts, hhs]
  have hcount : ((ts.map (fun t => (hp, t))).filter
      (fun pr => pr.1 == hp)).length = 5 := by
    rw [List.filter_eq_self.mpr ?_, List.length_map, hlen]
    intro pr hpr
    rcases List.mem_map.mp hpr with ⟨t, ht, rfl⟩
    simp
  have hq0 : ((ts.map (fun t => (hp, t))).filter
      (fun pr => pr.1 == hash (strip_ansi q))).length = 0 := by
    rw [List.length_eq_zero, List.filter_eq_nil_iff]
    intro pr hpr
    rcases List.mem_map.mp hpr with ⟨t, ht, rfl⟩
    simpa using (Ne.symm hdiff)
  have hcnt_p : ((cleanup_old_entries now 60
      ⟨ts, ts.map (fun t => (hp, t))⟩).approval_hashes.filter
      (fun pr => pr.1 == hash (strip_ansi p))).length = 5 := by
    rw [hclean, ← hhp]
    exact hcount
  have hcnt_q : ((cleanup_old_entries now 60
      ⟨ts, ts.map (fun t => (hp, t))⟩).approval_hashes.filter
      (fun pr => pr.1 == hash (strip_ansi q))).length = 0 := by
    rw [hclean]
    exact hq0
  have hlen_ts : (cleanup_old_entries now 60
      ⟨ts, ts.map (fun t => (hp, t))⟩).approval_timestamps.length = 5 := by
    rw [hclean]
    exact hlen
  constructor
  · rw [check_refuse_loop defaultConfig hash now _ p (by simp [defaultConfig, hcnt_p])]
    rw [hcnt_p]
    rfl
  · rw [check_allow defaultConfig hash now _ q (by simp [defaultConfig, hcnt_q])
      (by simp [defaultConfig, hlen_ts])]

/-- Witness for `rate_limiter_loop_detection`: five recordings of `"a"` at
time 0, checked at time 0 against `"a"` and against `"b"`. -/
theorem rate_limiter_loop_witness :
    (check_approval_allowed defaultConfig id 0
        (([0, 0, 0, 0, 0] : List Rat).foldl
          (fun s t => record_approval id t s "a") RLState.init) "a").2 =
      (false, some "Same prompt approved 5 times in 60s (max: 5)") ∧
    (check_approval_allowed defaultConfig id 0
        (([0, 0, 0, 0, 0] : List Rat).foldl
          (fun s t => record_approval id t s "a") RLState.init) "b").2 =
      (true, none) :=
  rate_limiter_loop_detection id "a" "b" [0, 0, 0, 0, 0] 0 (by decide)
    (by intro t ht; simp at ht; subst ht; norm_num) (by decide)

/-- C2 (amended): with the default configuration the additive scoring
reproduces the worked cases exactly (scores 6, 5, 3 and 2, with the
threshold at 3), and for every text whose *normalized* form contains the
fenced-code marker the score is forced to 0 and the text is not a
permission prompt.  (The zeroing tests the ANSI-stripped text, not the raw
input; see the counterexample for a raw text containing three backticks
that is still classified as a prompt.) -/
theorem classifier_worked_cases :
    (∀ t : String, containsStr (strip_ansi t) "```" = true →
      permissionScore defaultConfig t = 0 ∧
      is_permission_prompt defaultConfig t = false) ∧
    permissionScore defaultConfig "Permission rule: test\n1. Yes\n2. No\nEsc to cancel" = 6 ∧
    is_permission_prompt defaultConfig "Permission rule: test\n1. Yes\n2. No\nEsc to cancel" = true ∧
    get_prompt_type "Permission rule: test\n1. Yes\n2. No\nEsc to cancel" = "numbered_menu" ∧
    permissionScore defaultConfig "Do you want to proceed?\n1. Yes\n2. No" = 5 ∧
    is_permission_prompt defaultConfig "Do you want to proceed?\n1. Yes\n2. No" = true ∧
    permissionScore defaultConfig "1. Yes\n2. No" = 3 ∧
    is_permission_prompt defaultConfig "1. Yes\n2. No" = true ∧
    permissionScore defaultConfig "Permission rule: without buttons" = 2 ∧
    is_permission_prompt defaultConfig "Permission rule: without buttons" = false := by
  refine ⟨?_, by decide, by decide, by decide, by decide, by decide, by decide,
    by decide, by decide, by decide⟩
  intro t h
  have hscore : permissionScore defaultConfig t = 0 := by
    simp [permissionScore, h]
  refine ⟨hscore, ?_⟩
  simp only [is_permission_prompt, hscore]
  decide

/-- C2 (counterexample to the claim as stated): the raw text
`"\x1b[```1. Yes\n2. No"` contains the fenced-code marker, but the ANSI
escape pattern consumes the first backtick as a CSI final byte, so the
normalized text contains only two backticks and the Yes/No buttons still
score 3: `is_permission_prompt` returns true. -/
theorem classifier_fenced_code_cex :
    containsStr "\x1b[```1. Yes\n2. No" "```" = true ∧
    is_permission_prompt defaultConfig "\x1b[```1. Yes\n2. No" = true := by
  exact ⟨by decide, by decide⟩

/-- Witness for the universal part of `classifier_worked_cases` at a text
whose normalized form contains a fenced-code marker. -/
theorem classifier_worked_cases_witness :
    containsStr (strip_ansi "```bash\n1. Yes\n2. No\n```") "```" = true ∧
    permissionScore defaultConfig "```bash\n1. Yes\n2. No\n```" = 0 ∧
    is_permission_prompt defaultConfig "```bash\n1. Yes\n2. No\n```" = false :=
  ⟨by decide,
    (classifier_worked_cases.1 "```bash\n1. Yes\n2. No\n```" (by decide)).1,
    (classifier_worked_cases.1 "```bash\n1. Yes\n2. No\n```" (by decide)).2⟩

/-- C1: end-to-end with default configuration: starting from a fresh
wrapper state (empty buffer, auto-approve enabled, both limiter windows
empty), feeding the output `"Do you want to create this file?\n1. Yes\n2. No"`
detects a permission prompt and starts a countdown; running that countdown
with `auto_approve_delay = 0` completes immediately and writes exactly one
carriage-return sequence to the PTY, the approval counter becomes 1, and
the output buffer is cleared.  The MD5 fingerprint function is abstract:
the result holds for every `hash`. -/
theorem end_to_end_create_file (hash : String → String) :
    (handle_claude_output defaultConfig hash 0 WrapperModel.init
      "Do you want to create this file?\n1. Yes\n2. No").2 = true ∧
    (countdown_and_approve 0 0
      (handle_claude_output defaultConfig hash 0 WrapperModel.init
        "Do you want to create this file?\n1. Yes\n2. No").1).writes = ["\r"] ∧
    (countdown_and_approve 0 0
      (handle_claude_output defaultConfig hash 0 WrapperModel.init
        "Do you want to create this file?\n1. Yes\n2. No").1).approval_count = 1 ∧
    (countdown_and_approve 0 0
      (handle_claude_output defaultConfig hash 0 WrapperModel.init
        "Do you want to create this file?\n1. Yes\n2. No").1).output_buffer = "" := by
  exact ⟨rfl, rfl, rfl, rfl⟩

/-- C5 (code evaluation at the failing input): while a countdown is
RUNNING for the buffer `"1. Yes\n2. No"` (one approval of that fingerprint
already recorded), calling `start_countdown` again with the *same* buffer
— hence the same fingerprint — is not a no-op: the running countdown is
cancelled and superseded, a second approval record is appended, and the
call returns `true`.  This contradicts the claimed same-fingerprint no-op
returning `false` (and the method docstring "False if blocked or already
running"); the legacy monolith only cancels when the fingerprint differs
(`claude_wrapper.py`: `if self._countdown_running and not is_same_prompt`). -/
theorem start_countdown_same_prompt_restarts :
    (start_countdown defaultConfig (fun _ => "h") 1
      { WrapperModel.init with
          countdown_running := true
          last_buffer := "1. Yes\n2. No"
          rl := ⟨[0], [("h", 0)]⟩ }
      "1. Yes\n2. No").2 = true ∧
    (start_countdown defaultConfig (fun _ => "h") 1
      { WrapperModel.init with
          countdown_running := true
          last_buffer := "1. Yes\n2. No"
          rl := ⟨[0], [("h", 0)]⟩ }
      "1. Yes\n2. No").1.countdown_running = true ∧
    (start_countdown defaultConfig (fun _ => "h") 1
      { WrapperModel.init with
          countdown_running := true
          last_buffer := "1. Yes\n2. No"
          rl := ⟨[0], [("h", 0)]⟩ }
      "1. Yes\n2. No").1.countdown_cancelled = false ∧
    (start_countdown defaultConfig (fun _ => "h") 1
      { WrapperModel.init with
          countdown_running := true
          last_buffer := "1. Yes\n2. No"
          rl := ⟨[0], [("h", 0)]⟩ }
      "1. Yes\n2. No").1.rl.approval_hashes.length = 2 := by
  have h1 : ((1 : Rat) - 0 < 60) := by norm_num
  refine ⟨?_, ?_, ?_, ?_⟩ <;>
    simp [start_countdown, check_approval_allowed, cleanup_old_entries,
      record_approval, WrapperModel.init, RLState.init, List.filter_cons, h1,
      defaultConfig]

/-- C7 (counterexample to the claim as stated): with a 66-character buffer
containing `"1. Yes"`, no output for 3 seconds and no countdown running,
the idle fallback fires: it writes the carriage return, increments the
approval count, appends the time to the limiter's timestamp window and
clears the buffer — but the fingerprint window `approval_hashes` stays
empty, whereas a completed countdown records into *both* windows via
`record_approval`. -/
theorem idle_fallback_skips_fingerprint_window_cex :
    (check_idle_state defaultConfig 3
      { WrapperModel.init with output_buffer := "aaaaaaaaaaaaaaaaaaaaaaaaaaaaaaaaaaaaaaaaaaaaaaaaaaaaaaaaaaaa1. Yes" }).writes = ["\r"] ∧
    (check_idle_state defaultConfig 3
      { WrapperModel.init with output_buffer := "aaaaaaaaaaaaaaaaaaaaaaaaaaaaaaaaaaaaaaaaaaaaaaaaaaaaaaaaaaaa1. Yes" }).approval_count = 1 ∧
    (check_idle_state defaultConfig 3
      { WrapperModel.init with output_buffer := "aaaaaaaaaaaaaaaaaaaaaaaaaaaaaaaaaaaaaaaaaaaaaaaaaaaaaaaaaaaa1. Yes" }).rl.approval_timestamps = [3] ∧
    (check_idle_state defaultConfig 3
      { WrapperModel.init with output_buffer := "aaaaaaaaaaaaaaaaaaaaaaaaaaaaaaaaaaaaaaaaaaaaaaaaaaaaaaaaaaaa1. Yes" }).rl.approval_hashes =
      RLState.init.approval_hashes ∧
    (check_idle_state defaultConfig 3
      { WrapperModel.init with output_buffer := "aaaaaaaaaaaaaaaaaaaaaaaaaaaaaaaaaaaaaaaaaaaaaaaaaaaaaaaaaaaa1. Yes" }).output_buffer = "" := by
  have ht : ((5 : Rat) / 2 ≤ 3 - 0) := by norm_num
  have ht2 : ((5 : Rat) / 2 ≤ 3) := by norm_num
  have hlen : (50 < ("aaaaaaaaaaaaaaaaaaaaaaaaaaaaaaaaaaaaaaaaaaaaaaaaaaaaaaaaaaaa1. Yes" : String).length) := by decide
  have hpt : get_prompt_type "aaaaaaaaaaaaaaaaaaaaaaaaaaaaaaaaaaaaaaaaaaaaaaaaaaaaaaaaaaaa1. Yes" = "numbered_menu" := by decide
  refine ⟨?_, ?_, ?_, ?_, ?_⟩ <;>
    simp [check_idle_state, WrapperModel.init, RLState.init, defaultConfig,
      ht, ht2, hlen, hpt]

/-- C7 (amended): whenever the idle fallback fires (idle detection on,
auto-approve enabled, no countdown running, output and previous idle
action both at least `idle_timeout_seconds` old, buffer longer than 50
characters), it synthesizes exactly the keystroke sequence that
`_execute_approval` — a completing countdown — would write for the
buffer's prompt kind, increments the approval count, sets the
last-approval time, appends the time to the rate limiter's *timestamp*
window only (the fingerprint window is untouched), and clears the output
buffer. -/
theorem idle_fallback_matches_countdown_keystrokes (cfg : Config) (now : Rat)
    (m : WrapperModel)
    (h1 : cfg.idle_detection_enabled = true)
    (h2 : m.auto_approve_enabled = true)
    (h3 : m.countdown_running = false)
    (h4 : cfg.idle_timeout_seconds ≤ now - m.last_output_time)
    (h5 : cfg.idle_timeout_seconds ≤ now - m.last_idle_action_time)
    (h6 : 50 < m.output_buffer.length) :
    (check_idle_state cfg now m).writes =
      (execute_approval now { m with last_buffer := m.output_buffer }).writes ∧
    (check_idle_state cfg now m).approval_count = m.approval_count + 1 ∧
    (check_idle_state cfg now m).last_approval_time = now ∧
    (check_idle_state cfg now m).rl.approval_timestamps =
      m.rl.approval_timestamps ++ [now] ∧
    (check_idle_state cfg now m).rl.approval_hashes = m.rl.approval_hashes ∧
    (check_idle_state cfg now m).output_buffer = "" := by
  have hc : check_idle_state cfg now m =
      (let m2 :=
        if get_prompt_type m.output_buffer == "numbered_menu" then
          { m with writes := m.writes ++ ["\r"] }
        else
          { m with writes := m.writes ++ ["yes", "\r"] }
       { m2 with last_idle_action_time := now
                 approval_count := m2.approval_count + 1
                 last_approval_time := now
                 rl := { m2.rl with
                           approval_timestamps := m2.rl.approval_timestamps ++ [now] }
                 output_buffer := "" }) := by
    simp [check_idle_state, h1, h2, h3, h4, h5, h6]
  rw [hc]
  by_cases hk : get_prompt_type m.output_buffer == "numbered_menu" <;>
    simp [hk, execute_approval]

/-- Witness for `idle_fallback_matches_countdown_keystrokes` at the
concrete 66-character buffer and time 3. -/
theorem idle_fallback_witness :
    (check_idle_state defaultConfig 3
      { WrapperModel.init with output_buffer := "aaaaaaaaaaaaaaaaaaaaaaaaaaaaaaaaaaaaaaaaaaaaaaaaaaaaaaaaaaaa1. Yes" }).rl.approval_hashes =
      ({ WrapperModel.init with output_buffer := "aaaaaaaaaaaaaaaaaaaaaaaaaaaaaaaaaaaaaaaaaaaaaaaaaaaaaaaaaaaa1. Yes" } :
        WrapperModel).rl.approval_hashes ∧
    (check_idle_state defaultConfig 3
      { WrapperModel.init with output_buffer := "aaaaaaaaaaaaaaaaaaaaaaaaaaaaaaaaaaaaaaaaaaaaaaaaaaaaaaaaaaaa1. Yes" }).writes =
      (execute_approval 3
        { { WrapperModel.init with output_buffer := "aaaaaaaaaaaaaaaaaaaaaaaaaaaaaaaaaaaaaaaaaaaaaaaaaaaaaaaaaaaa1. Yes" } with
            last_buffer :=
              ({ WrapperModel.init with output_buffer := "aaaaaaaaaaaaaaaaaaaaaaaaaaaaaaaaaaaaaaaaaaaaaaaaaaaaaaaaaaaa1. Yes" } :
                WrapperModel).output_buffer }).writes :=
  ⟨(idle_fallback_matches_countdown_keystrokes defaultConfig 3
      { WrapperModel.init with output_buffer := "aaaaaaaaaaaaaaaaaaaaaaaaaaaaaaaaaaaaaaaaaaaaaaaaaaaaaaaaaaaa1. Yes" }
      rfl rfl rfl (by norm_num [defaultConfig, WrapperModel.init])
      (by norm_num [defaultConfig, WrapperModel.init]) (by decide)).2.2.2.2.1,
    (idle_fallback_matches_countdown_keystrokes defaultConfig 3
      { WrapperModel.init with output_buffer := "aaaaaaaaaaaaaaaaaaaaaaaaaaaaaaaaaaaaaaaaaaaaaaaaaaaaaaaaaaaa1. Yes" }
      rfl rfl rfl (by norm_num [defaultConfig, WrapperModel.init])
      (by norm_num [defaultConfig, WrapperModel.init]) (by decide)).1⟩

/-- C4 (trace evaluation at the failing interleaving): a countdown for
the buffer `"Do you want to proceed?\n1. Yes\n2. No"` has finished its
loop and stands just before its final cancellation check when
`start_countdown` for the different-fingerprint buffer
`"Do you want to create this file?\n1. Yes\n2. No"` supersedes it.  The
locked section sets the shared `_countdown_cancelled` event and
immediately clears it again for the new countdown, so the old thread's
final check sees the event cleared and writes its approval — followed by
the new thread's approval write: two carriage-return sequences reach the
PTY, violating the claimed at-most-one-write guarantee. -/
theorem countdown_supersede_double_write :
    strip_ansi "Do you want to proceed?\n1. Yes\n2. No" ≠
      strip_ansi "Do you want to create this file?\n1. Yes\n2. No" ∧
    ∃ s : ConcState,
      Relation.ReflTransGen CStep
        (concInit "Do you want to proceed?\n1. Yes\n2. No" 0) s ∧
      s.writes = ["\r", "\r"] ∧ s.thread1 = ThreadPC.finished ∧
      s.thread2 = ThreadPC.finished := by
  refine ⟨by decide, ?_⟩
  refine ⟨_,
    Relation.ReflTransGen.head
      (CStep.supersede _ "Do you want to create this file?\n1. Yes\n2. No" 0
        rfl rfl)
      (Relation.ReflTransGen.head
        (CStep.finalApprove _ false rfl rfl)
        (Relation.ReflTransGen.head
          (CStep.finalApprove _ true rfl rfl)
          Relation.ReflTransGen.refl)),
    ?_, ?_, ?_⟩
  · decide
  · decide
  · decide

end AutoApprove
